import Mathlib

/-!
Verification of the repository's two C sources against its specification.

`src/task1.c` implements `findUnique`, an XOR scan over an `int32_t` array.
`src/task2.c` implements a master/slave command-response protocol engine on a
FreeRTOS-style substrate: an ingress router task (`updInputDataParseTask`)
that classifies inbound datagrams into two queues, a command-processor task
(`commandsProcessTask`) that executes one command per cycle and drives a
3-attempt response/reply-ack handshake, and a mutex-guarded transmit helper
(`udpSendBlocked`).

Machine integers are modelled as `Nat` holding the bit pattern of the C value
(XOR and byte extraction act identically on the pattern; no arithmetic that
could overflow occurs in the modelled code).
-/

namespace Task1

/-- Embedding of `findUnique` from `src/task1.c` lines 43-53: the C loop
`for i in [0, n): result ^= a[i]` starting from `result = 0`, with the
`(a, n)` pointer-length pair modelled as a list of the `n` array cells in
index order. -/
def findUnique (a : List Nat) : Nat :=
  a.foldl (· ^^^ ·) 0

/-- XOR folded from the left with an arbitrary accumulator peels the
accumulator off. -/
theorem foldl_xor_start (l : List Nat) : ∀ s : Nat,
    l.foldl (· ^^^ ·) s = s ^^^ l.foldl (· ^^^ ·) 0 := by
  induction l with
  | nil => intro s; simp [List.foldl]
  | cons x t ih =>
      intro s
      simp only [List.foldl]
      rw [ih (s ^^^ x), ih (0 ^^^ x)]
      rw [Nat.zero_xor, Nat.xor_assoc]

/-- The left fold of XOR agrees with the right fold: `findUnique` computes
the XOR of all array cells in any association order. -/
theorem findUnique_eq_foldr (a : List Nat) :
    findUnique a = a.foldr (· ^^^ ·) 0 := by
  induction a with
  | nil => rfl
  | cons x t ih =>
      simp only [findUnique, List.foldl, List.foldr] at *
      rw [foldl_xor_start, Nat.zero_xor, ih]

/-- XOR folds are invariant under permutation of the list. -/
theorem foldl_xor_perm {l₁ l₂ : List Nat} (p : l₁.Perm l₂) :
    l₁.foldl (· ^^^ ·) 0 = l₂.foldl (· ^^^ ·) 0 := by
  induction p with
  | nil => rfl
  | cons x _ ih =>
      simp only [List.foldl]
      rw [foldl_xor_start, foldl_xor_start (s := 0 ^^^ x), ih]
  | swap x y l =>
      simp only [List.foldl]
      rw [foldl_xor_start, foldl_xor_start (s := 0 ^^^ x ^^^ y)]
      rw [Nat.zero_xor, Nat.zero_xor, Nat.xor_comm y x]
  | trans _ _ ih₁ ih₂ => exact ih₁.trans ih₂

/-- Folding XOR over `k` copies of `u` yields `u` when `k` is odd and `0`
when `k` is even. -/
theorem foldl_xor_replicate (u : Nat) : ∀ k : Nat,
    (List.replicate k u).foldl (· ^^^ ·) 0 = if Even k then 0 else u := by
  intro k
  induction k with
  | zero => simp
  | succ n ih =>
      rw [List.replicate_succ]
      simp only [List.foldl]
      rw [foldl_xor_start, Nat.zero_xor, ih]
      rcases Nat.even_or_odd n with h | h
      · have hn1 : ¬ Even (n + 1) := by
          rw [Nat.even_add_one]; exact fun hc => hc h
        simp [h, hn1, Nat.xor_zero]
      · have hn : ¬ Even n := Nat.not_even_iff_odd.mpr h
        have hs : Even (n + 1) := by
          rw [Nat.even_add_one]; exact hn
        simp [hn, hs, Nat.xor_self]

/-- Core cancellation argument: when `u` occurs an odd number of times and
every other element an even number of times, the XOR fold collapses to `u`.
Strong induction on the list length, removing one pair of equal non-`u`
elements at a time. -/
theorem foldl_xor_unique : ∀ (n : Nat) (a : List Nat) (u : Nat),
    a.length = n →
    Odd (a.count u) →
    (∀ x ∈ a, x ≠ u → Even (a.count x)) →
    a.foldl (· ^^^ ·) 0 = u := by
  intro n
  induction n using Nat.strong_induction_on with
  | _ n ih =>
      intro a u hlen hodd hev
      by_cases hall : ∀ x ∈ a, x = u
      · -- every cell equals u: the list is replicate of u, odd length
        have hrep : a = List.replicate a.length u :=
          List.eq_replicate_length.mpr hall
        have hcnt : a.count u = a.length := by
          conv_lhs => rw [hrep]
          simp [List.count_replicate]
        have hodd' : Odd a.length := hcnt ▸ hodd
        rw [hrep, foldl_xor_replicate]
        simp [Nat.not_even_iff_odd.mpr hodd']
      · -- pick x₀ ≠ u occurring in a; its count is even and positive, so ≥ 2
        push_neg at hall
        obtain ⟨x₀, hx₀mem, hx₀ne⟩ := hall
        have hx₀ev : Even (a.count x₀) := hev x₀ hx₀mem hx₀ne
        have hx₀pos : 0 < a.count x₀ := List.count_pos_iff.mpr hx₀mem
        have hx₀two : 2 ≤ a.count x₀ := by
          rcases hx₀ev with ⟨m, hm⟩
          omega
        -- remove two copies of x₀
        set a₁ := a.erase x₀ with ha₁
        have hmem₁ : x₀ ∈ a₁ := by
          have hpos : 0 < a₁.count x₀ := by
            rw [ha₁, List.count_erase_self]; omega
          exact List.count_pos_iff.mp hpos
        set a₂ := a₁.erase x₀ with ha₂
        have hperm : a.Perm (x₀ :: a₁) := List.perm_cons_erase hx₀mem
        have hperm₁ : a₁.Perm (x₀ :: a₂) := List.perm_cons_erase hmem₁
        have hperm₂ : a.Perm (x₀ :: x₀ :: a₂) :=
          hperm.trans (List.Perm.cons x₀ hperm₁)
        -- counts in the reduced list
        have hcount₂ : ∀ y : Nat, a₂.count y =
            if y = x₀ then a.count y - 2 else a.count y := by
          intro y
          by_cases hy : y = x₀
          · subst hy
            rw [ha₂, ha₁, List.count_erase_self, List.count_erase_self,
              if_pos rfl]
            omega
          · rw [ha₂, ha₁, List.count_erase_of_ne hy, List.count_erase_of_ne hy,
              if_neg hy]
        have hlen₂ : a₂.length + 2 = a.length := by
          have hl := hperm₂.length_eq
          simp at hl
          omega
        have hune : u ≠ x₀ := fun h => hx₀ne h.symm
        have hodd₂ : Odd (a₂.count u) := by
          rw [hcount₂ u, if_neg hune]
          exact hodd
        have hev₂ : ∀ x ∈ a₂, x ≠ u → Even (a₂.count x) := by
          intro x hxmem hxne
          have hxa : x ∈ a := by
            have h1 : x ∈ a₁ := List.mem_of_mem_erase (ha₂ ▸ hxmem)
            exact List.mem_of_mem_erase (ha₁ ▸ h1)
          rw [hcount₂ x]
          by_cases hxx : x = x₀
          · subst hxx
            rw [if_pos rfl]
            rcases hx₀ev with ⟨m, hm⟩
            exact ⟨m - 1, by omega⟩
          · rw [if_neg hxx]
            exact hev x hxa hxne
        -- fold over a equals fold over a₂ (the x₀ pair cancels)
        have hfold : a.foldl (· ^^^ ·) 0 = a₂.foldl (· ^^^ ·) 0 := by
          rw [foldl_xor_perm hperm₂]
          simp only [List.foldl]
          rw [foldl_xor_start, Nat.zero_xor, Nat.xor_self, Nat.zero_xor]
        rw [hfold]
        exact ih a₂.length (by omega) a₂ u rfl hodd₂ hev₂

/-- Claim C10: `findUnique(a, n)` returns the XOR of `a[0..n-1]` (stated as
agreement with the right fold of XOR over the cells); it returns `0` on the
empty array; and when some element `u` occurs an odd number of times while
every other distinct element occurs an even number of times, it returns `u`. -/
theorem c10_findUnique_xor (a : List Nat) (u : Nat) :
    findUnique a = a.foldr (· ^^^ ·) 0 ∧
    findUnique ([] : List Nat) = 0 ∧
    (Odd (a.count u) → (∀ x ∈ a, x ≠ u → Even (a.count x)) →
      findUnique a = u) := by
  refine ⟨findUnique_eq_foldr a, rfl, ?_⟩
  intro hodd hev
  exact foldl_xor_unique a.length a u rfl hodd hev

/-- Witness for C10 at the concrete array of `main` in `src/task1.c`
(`{2, 4, 6, 8, 10, 6, 4, 2, 8}`): `10` is the element with odd count and
`findUnique` returns it. -/
theorem c10_findUnique_xor_witness :
    findUnique [2, 4, 6, 8, 10, 6, 4, 2, 8] = 10 :=
  (c10_findUnique_xor [2, 4, 6, 8, 10, 6, 4, 2, 8] 10).2.2
    (by decide) (by decide)

end Task1

namespace Task2

/-! Constants from `src/task2.c` lines 43-61. -/

def PACKET_MAX_SIZE : Nat := 14
def PACKET_TYPE_COMMAND : Nat := 1
def PACKET_TYPE_RESPONSE : Nat := 2
def PACKET_TYPE_REQ_ACK : Nat := 3
def PACKET_TYPE_REPLY_ACK : Nat := 4
def COMMAND_TYPE_READ_REGISTER : Nat := 0
def COMMAND_TYPE_WRITE_REGISTER : Nat := 1
def RESPONSE_FAULT : Nat := 0
def RESPONSE_OK : Nat := 1
def SEND_RESPONSE_ATTEMPTS : Nat := 3
def TIMEOUT_SEND_COMMAND_MS : Nat := 1000
def TIMEOUT_SEND_REPLY_ACK_MS : Nat := 1000
def TIMEOUT_RECEIVE_REPLY_ACK_MS : Nat := 100

/-- `commandData_t` (lines 63-69); each `uint32_t`/`uint8_t` field carries
its bit pattern as a `Nat`. -/
structure commandData_t where
  packet_id : Nat
  command_type : Nat
  reg_address : Nat
  reg_value : Nat
deriving DecidableEq, Repr

/-- `responseData_t` (lines 71-77). -/
structure responseData_t where
  packet_id : Nat
  response_status : Nat
  reg_address : Nat
  reg_value : Nat
deriving DecidableEq, Repr

/-- `ackData_t` (lines 79-82). -/
structure ackData_t where
  packet_id : Nat
deriving DecidableEq, Repr

/-- Lines 154-169 of `commandsProcessTask`: building `responseData` from the
received command. The register backend is abstract: `reg_read` returns the
`(status, value)` pair of `reg_read(addr, &out)`, `reg_write` returns the
status of `reg_write(addr, value)`. `prevRegValue` is whatever the local
`responseData.reg_value` held before this cycle: on the fault branch (line
166-169) the C code assigns no new value to it. -/
def makeResponseData (reg_read : Nat → Nat × Nat) (reg_write : Nat → Nat → Nat)
    (prevRegValue : Nat) (cmd : commandData_t) : responseData_t :=
  if cmd.command_type = COMMAND_TYPE_READ_REGISTER then
    { packet_id := cmd.packet_id
      response_status := (reg_read cmd.reg_address).1
      reg_address := cmd.reg_address
      reg_value := (reg_read cmd.reg_address).2 }
  else if cmd.command_type = COMMAND_TYPE_WRITE_REGISTER then
    { packet_id := cmd.packet_id
      response_status := reg_write cmd.reg_address cmd.reg_value
      reg_address := cmd.reg_address
      reg_value := cmd.reg_value }
  else
    { packet_id := cmd.packet_id
      response_status := RESPONSE_FAULT
      reg_address := cmd.reg_address
      reg_value := prevRegValue }

/-- `xQueueReset(replyAckQueue)` (line 172): the queue content is discarded. -/
def xQueueReset (pending : List ackData_t) : List ackData_t :=
  let _ := pending
  []

/-- One `xQueueReceive` on the capacity-1 `replyAckQueue` with the 100 ms
timeout (line 180). A pending entry is returned immediately and an ack
arriving during this attempt's window then queues behind it; if the queue is
empty, the receive returns the ack arriving within the window, if any
(`arrival = none` models the timeout elapsing with no ack). -/
def receiveReplyAck (q : List ackData_t) (arrival : Option ackData_t) :
    Option ackData_t × List ackData_t :=
  match q with
  | a :: rest => (some a, rest ++ arrival.toList)
  | [] =>
    match arrival with
    | some a => (some a, [])
    | none => (none, [])

/-- The retry loop of `commandsProcessTask` (lines 174-185), from a given
value of `attempt` and queue content `q`. Each iteration stores and sends the
response record, then waits on the reply-ack queue; a dequeued ack whose
`packet_id` equals the command's breaks out of the loop. Returns the list of
response records sent from this attempt on and the final value of the C
`attempt` counter (`SEND_RESPONSE_ATTEMPTS` exactly when the loop exhausted
all attempts). `arrivals j` is the ack, if any, that the router makes
available to attempt `j`'s receive. -/
def retryLoop (cmdId : Nat) (resp : responseData_t)
    (arrivals : Nat → Option ackData_t) (attempt : Nat) (q : List ackData_t) :
    List responseData_t × Nat :=
  if _h : attempt < SEND_RESPONSE_ATTEMPTS then
    let r := receiveReplyAck q (arrivals attempt)
    match r.1 with
    | some a =>
      if a.packet_id = cmdId then
        ([resp], attempt)
      else
        let rest := retryLoop cmdId resp arrivals (attempt + 1) r.2
        (resp :: rest.1, rest.2)
    | none =>
        let rest := retryLoop cmdId resp arrivals (attempt + 1) r.2
        (resp :: rest.1, rest.2)
  else
    ([], attempt)
termination_by SEND_RESPONSE_ATTEMPTS - attempt
decreasing_by all_goals omega

/-- Observable outcome of one iteration of `commandsProcessTask`'s while-loop
body (lines 145-192) for one accepted command. -/
structure cycleResult_t where
  reqAcksSent : List ackData_t
  responsesSent : List responseData_t
  finalAttempt : Nat
  handshakeFailSignaled : Bool
deriving DecidableEq, Repr

/-- One iteration of `commandsProcessTask`'s while-loop body (lines 145-192)
for one command dequeued from `commandDataQueue`: send `REQ_ACK` (lines
150-151), compute the response (lines 154-169), reset the reply-ack queue
(line 172), run the retry loop (lines 174-185) and signal failure when the
loop exhausted every attempt (lines 187-191). `pendingAcks` is the content of
`replyAckQueue` at cycle start (e.g. a stale ack from an earlier cycle). -/
def commandsProcessCycle (reg_read : Nat → Nat × Nat)
    (reg_write : Nat → Nat → Nat) (prevRegValue : Nat)
    (pendingAcks : List ackData_t) (cmd : commandData_t)
    (arrivals : Nat → Option ackData_t) : cycleResult_t :=
  let reqAckData : ackData_t := { packet_id := cmd.packet_id }
  let responseData := makeResponseData reg_read reg_write prevRegValue cmd
  let q0 := xQueueReset pendingAcks
  let r := retryLoop cmd.packet_id responseData arrivals 0 q0
  { reqAcksSent := [reqAckData]
    responsesSent := r.1
    finalAttempt := r.2
    handshakeFailSignaled := r.2 == SEND_RESPONSE_ATTEMPTS }

/-- Unfolding: past the last attempt the loop stops with the counter value. -/
theorem retryLoop_stop {cmdId : Nat} {resp : responseData_t}
    {arrivals : Nat → Option ackData_t} {attempt : Nat} {q : List ackData_t}
    (h : ¬ attempt < SEND_RESPONSE_ATTEMPTS) :
    retryLoop cmdId resp arrivals attempt q = ([], attempt) := by
  rw [retryLoop]
  simp [h]

/-- Unfolding: an attempt whose 100 ms wait times out sends one response and
continues with the next attempt. -/
theorem retryLoop_timeout {cmdId : Nat} {resp : responseData_t}
    {arrivals : Nat → Option ackData_t} {attempt : Nat}
    (h : attempt < SEND_RESPONSE_ATTEMPTS) (ha : arrivals attempt = none) :
    retryLoop cmdId resp arrivals attempt [] =
      (resp :: (retryLoop cmdId resp arrivals (attempt + 1) []).1,
        (retryLoop cmdId resp arrivals (attempt + 1) []).2) := by
  rw [retryLoop]
  simp [h, ha, receiveReplyAck]

/-- Unfolding: an attempt that dequeues an ack with the command's packet_id
sends one response and breaks out with the current counter value. -/
theorem retryLoop_break {cmdId : Nat} {resp : responseData_t}
    {arrivals : Nat → Option ackData_t} {attempt : Nat} {a : ackData_t}
    (h : attempt < SEND_RESPONSE_ATTEMPTS) (ha : arrivals attempt = some a)
    (hid : a.packet_id = cmdId) :
    retryLoop cmdId resp arrivals attempt [] = ([resp], attempt) := by
  rw [retryLoop]
  simp [h, ha, receiveReplyAck, hid]

/-- Unfolding: an attempt that dequeues an ack with a different packet_id
sends one response and continues with the next attempt. -/
theorem retryLoop_mismatch {cmdId : Nat} {resp : responseData_t}
    {arrivals : Nat → Option ackData_t} {attempt : Nat} {a : ackData_t}
    (h : attempt < SEND_RESPONSE_ATTEMPTS) (ha : arrivals attempt = some a)
    (hid : ¬ a.packet_id = cmdId) :
    retryLoop cmdId resp arrivals attempt [] =
      (resp :: (retryLoop cmdId resp arrivals (attempt + 1) []).1,
        (retryLoop cmdId resp arrivals (attempt + 1) []).2) := by
  rw [retryLoop]
  simp [h, ha, receiveReplyAck, hid]

/-- Without the reset, a stale matching ack sitting in the queue would be
accepted by the first attempt: the queue model is sensitive to pending
entries. -/
theorem retryLoop_pending_match (cmdId : Nat) (resp : responseData_t)
    (arrivals : Nat → Option ackData_t) (pending : List ackData_t) :
    retryLoop cmdId resp arrivals 0
      ({ packet_id := cmdId } :: pending) = ([resp], 0) := by
  rw [retryLoop]
  simp [receiveReplyAck, SEND_RESPONSE_ATTEMPTS]

/-- Every response record the loop sends is the one record it was given:
the sent list is a replicate of `resp`. -/
theorem retryLoop_sent_replicate (cmdId : Nat) (resp : responseData_t)
    (arrivals : Nat → Option ackData_t) :
    ∀ (k attempt : Nat), SEND_RESPONSE_ATTEMPTS - attempt = k →
    (retryLoop cmdId resp arrivals attempt []).1 =
      List.replicate (retryLoop cmdId resp arrivals attempt []).1.length resp := by
  intro k
  induction k with
  | zero =>
      intro attempt h
      have hge : ¬ attempt < SEND_RESPONSE_ATTEMPTS := by omega
      rw [retryLoop_stop hge]
      rfl
  | succ k ih =>
      intro attempt h
      have hlt : attempt < SEND_RESPONSE_ATTEMPTS := by omega
      cases ha : arrivals attempt with
      | none =>
          rw [retryLoop_timeout hlt ha]
          show _ = List.replicate (_ + 1) resp
          rw [List.replicate_succ]
          exact congrArg (List.cons resp) (ih (attempt + 1) (by omega))
      | some a =>
          by_cases hid : a.packet_id = cmdId
          · rw [retryLoop_break hlt ha hid]
            rfl
          · rw [retryLoop_mismatch hlt ha hid]
            show _ = List.replicate (_ + 1) resp
            rw [List.replicate_succ]
            exact congrArg (List.cons resp) (ih (attempt + 1) (by omega))

/-- Starting below the attempt limit, the loop sends at least one and at
most `SEND_RESPONSE_ATTEMPTS - attempt` responses. -/
theorem retryLoop_length_bounds (cmdId : Nat) (resp : responseData_t)
    (arrivals : Nat → Option ackData_t) :
    ∀ (k attempt : Nat), SEND_RESPONSE_ATTEMPTS - attempt = k →
    attempt < SEND_RESPONSE_ATTEMPTS →
    1 ≤ (retryLoop cmdId resp arrivals attempt []).1.length ∧
    (retryLoop cmdId resp arrivals attempt []).1.length ≤
      SEND_RESPONSE_ATTEMPTS - attempt := by
  intro k
  induction k with
  | zero => intro attempt h hlt; omega
  | succ k ih =>
      intro attempt h hlt
      cases ha : arrivals attempt with
      | none =>
          rw [retryLoop_timeout hlt ha]
          simp only [List.length_cons]
          by_cases h2 : attempt + 1 < SEND_RESPONSE_ATTEMPTS
          · have hb := ih (attempt + 1) (by omega) h2
            omega
          · rw [retryLoop_stop h2]
            simp only [List.length_nil]
            omega
      | some a =>
          by_cases hid : a.packet_id = cmdId
          · rw [retryLoop_break hlt ha hid]
            simp only [List.length_cons, List.length_nil]
            omega
          · rw [retryLoop_mismatch hlt ha hid]
            simp only [List.length_cons]
            by_cases h2 : attempt + 1 < SEND_RESPONSE_ATTEMPTS
            · have hb := ih (attempt + 1) (by omega) h2
              omega
            · rw [retryLoop_stop h2]
              simp only [List.length_nil]
              omega

/-- The final attempt counter stays between the starting attempt and
`SEND_RESPONSE_ATTEMPTS`. -/
theorem retryLoop_final_bounds (cmdId : Nat) (resp : responseData_t)
    (arrivals : Nat → Option ackData_t) :
    ∀ (k attempt : Nat), SEND_RESPONSE_ATTEMPTS - attempt = k →
    attempt ≤ SEND_RESPONSE_ATTEMPTS →
    attempt ≤ (retryLoop cmdId resp arrivals attempt []).2 ∧
    (retryLoop cmdId resp arrivals attempt []).2 ≤ SEND_RESPONSE_ATTEMPTS := by
  intro k
  induction k with
  | zero =>
      intro attempt h hle
      have hge : ¬ attempt < SEND_RESPONSE_ATTEMPTS := by omega
      rw [retryLoop_stop hge]
      omega
  | succ k ih =>
      intro attempt h hle
      have hlt : attempt < SEND_RESPONSE_ATTEMPTS := by omega
      cases ha : arrivals attempt with
      | none =>
          rw [retryLoop_timeout hlt ha]
          have hb := ih (attempt + 1) (by omega) (by omega)
          omega
      | some a =>
          by_cases hid : a.packet_id = cmdId
          · rw [retryLoop_break hlt ha hid]
            omega
          · rw [retryLoop_mismatch hlt ha hid]
            have hb := ih (attempt + 1) (by omega) (by omega)
            omega

/-- If some attempt `j` reachable from the current one has a matching ack
available, the loop ends in success (counter strictly below the attempt
limit) having sent at most `j + 1 - attempt` responses. -/
theorem retryLoop_success (cmdId : Nat) (resp : responseData_t)
    (arrivals : Nat → Option ackData_t) :
    ∀ (k attempt : Nat), SEND_RESPONSE_ATTEMPTS - attempt = k →
    ∀ (j : Nat) (a : ackData_t), attempt ≤ j → j < SEND_RESPONSE_ATTEMPTS →
    arrivals j = some a → a.packet_id = cmdId →
    (retryLoop cmdId resp arrivals attempt []).2 < SEND_RESPONSE_ATTEMPTS ∧
    (retryLoop cmdId resp arrivals attempt []).1.length ≤ j + 1 - attempt := by
  intro k
  induction k with
  | zero => intro attempt h j a haj hjS _ _; omega
  | succ k ih =>
      intro attempt h j a haj hjS hj hid
      have hlt : attempt < SEND_RESPONSE_ATTEMPTS := by omega
      cases ha : arrivals attempt with
      | none =>
          have hne : j ≠ attempt := by
            intro he
            rw [he, ha] at hj
            exact Option.noConfusion hj
          rw [retryLoop_timeout hlt ha]
          have hb := ih (attempt + 1) (by omega) j a (by omega) hjS hj hid
          simp only [List.length_cons]
          omega
      | some b =>
          by_cases hbid : b.packet_id = cmdId
          · rw [retryLoop_break hlt ha hbid]
            simp only [List.length_cons, List.length_nil]
            omega
          · have hne : j ≠ attempt := by
              intro he
              rw [he, ha] at hj
              have hab : b = a := by
                cases hj
                rfl
              rw [hab] at hbid
              exact hbid hid
            rw [retryLoop_mismatch hlt ha hbid]
            have hb := ih (attempt + 1) (by omega) j a (by omega) hjS hj hid
            simp only [List.length_cons]
            omega

/-- If no reachable attempt has a matching ack available, the loop runs all
remaining attempts: the counter ends at `SEND_RESPONSE_ATTEMPTS` and exactly
`SEND_RESPONSE_ATTEMPTS - attempt` responses are sent. -/
theorem retryLoop_exhaust (cmdId : Nat) (resp : responseData_t)
    (arrivals : Nat → Option ackData_t) :
    ∀ (k attempt : Nat), SEND_RESPONSE_ATTEMPTS - attempt = k →
    attempt ≤ SEND_RESPONSE_ATTEMPTS →
    (∀ (j : Nat) (a : ackData_t), attempt ≤ j → j < SEND_RESPONSE_ATTEMPTS →
      arrivals j = some a → a.packet_id ≠ cmdId) →
    (retryLoop cmdId resp arrivals attempt []).2 = SEND_RESPONSE_ATTEMPTS ∧
    (retryLoop cmdId resp arrivals attempt []).1.length =
      SEND_RESPONSE_ATTEMPTS - attempt := by
  intro k
  induction k with
  | zero =>
      intro attempt h hle _
      have hge : ¬ attempt < SEND_RESPONSE_ATTEMPTS := by omega
      rw [retryLoop_stop hge]
      simp only [List.length_nil]
      omega
  | succ k ih =>
      intro attempt h hle hnone
      have hlt : attempt < SEND_RESPONSE_ATTEMPTS := by omega
      have hnext : ∀ (j : Nat) (a : ackData_t), attempt + 1 ≤ j →
          j < SEND_RESPONSE_ATTEMPTS → arrivals j = some a →
          a.packet_id ≠ cmdId :=
        fun j a hj hjS hja => hnone j a (by omega) hjS hja
      cases ha : arrivals attempt with
      | none =>
          rw [retryLoop_timeout hlt ha]
          have hb := ih (attempt + 1) (by omega) (by omega) hnext
          simp only [List.length_cons]
          omega
      | some b =>
          have hbid : b.packet_id ≠ cmdId :=
            hnone attempt b (Nat.le_refl attempt) hlt ha
          rw [retryLoop_mismatch hlt ha hbid]
          have hb := ih (attempt + 1) (by omega) (by omega) hnext
          simp only [List.length_cons]
          omega

/-- Projection: the REQ_ACK frames of a cycle. -/
theorem commandsProcessCycle_reqAcks (reg_read : Nat → Nat × Nat)
    (reg_write : Nat → Nat → Nat) (prevRegValue : Nat)
    (pendingAcks : List ackData_t) (cmd : commandData_t)
    (arrivals : Nat → Option ackData_t) :
    (commandsProcessCycle reg_read reg_write prevRegValue pendingAcks cmd
        arrivals).reqAcksSent = [{ packet_id := cmd.packet_id }] := rfl

/-- Projection: the Response frames of a cycle come from the retry loop run
on the reset (empty) queue. -/
theorem commandsProcessCycle_responses (reg_read : Nat → Nat × Nat)
    (reg_write : Nat → Nat → Nat) (prevRegValue : Nat)
    (pendingAcks : List ackData_t) (cmd : commandData_t)
    (arrivals : Nat → Option ackData_t) :
    (commandsProcessCycle reg_read reg_write prevRegValue pendingAcks cmd
        arrivals).responsesSent =
      (retryLoop cmd.packet_id
        (makeResponseData reg_read reg_write prevRegValue cmd) arrivals 0 []).1 := rfl

/-- Projection: the final attempt counter of a cycle. -/
theorem commandsProcessCycle_finalAttempt (reg_read : Nat → Nat × Nat)
    (reg_write : Nat → Nat → Nat) (prevRegValue : Nat)
    (pendingAcks : List ackData_t) (cmd : commandData_t)
    (arrivals : Nat → Option ackData_t) :
    (commandsProcessCycle reg_read reg_write prevRegValue pendingAcks cmd
        arrivals).finalAttempt =
      (retryLoop cmd.packet_id
        (makeResponseData reg_read reg_write prevRegValue cmd) arrivals 0 []).2 := rfl

/-- Projection: failure is signalled exactly when the counter ended at the
attempt limit (C line 187). -/
theorem commandsProcessCycle_fail (reg_read : Nat → Nat × Nat)
    (reg_write : Nat → Nat → Nat) (prevRegValue : Nat)
    (pendingAcks : List ackData_t) (cmd : commandData_t)
    (arrivals : Nat → Option ackData_t) :
    (commandsProcessCycle reg_read reg_write prevRegValue pendingAcks cmd
        arrivals).handshakeFailSignaled =
      ((retryLoop cmd.packet_id
        (makeResponseData reg_read reg_write prevRegValue cmd) arrivals 0 []).2
          == SEND_RESPONSE_ATTEMPTS) := rfl

/-- Claim C1: for every command accepted from the command channel the
processor sends exactly one RequestAck frame (carrying the command's
packet_id) and between 1 and 3 Response frames, and every Response frame of
the cycle is the one computed ResponseRecord retransmitted verbatim — same
packet_id, address and value. -/
theorem c1_cycle_sends (reg_read : Nat → Nat × Nat)
    (reg_write : Nat → Nat → Nat) (prevRegValue : Nat)
    (pendingAcks : List ackData_t) (cmd : commandData_t)
    (arrivals : Nat → Option ackData_t) :
    (commandsProcessCycle reg_read reg_write prevRegValue pendingAcks cmd
        arrivals).reqAcksSent = [{ packet_id := cmd.packet_id }] ∧
    ∃ k, 1 ≤ k ∧ k ≤ SEND_RESPONSE_ATTEMPTS ∧
      (commandsProcessCycle reg_read reg_write prevRegValue pendingAcks cmd
          arrivals).responsesSent =
        List.replicate k (makeResponseData reg_read reg_write prevRegValue cmd) := by
  rw [commandsProcessCycle_reqAcks, commandsProcessCycle_responses]
  refine ⟨rfl, (retryLoop cmd.packet_id
    (makeResponseData reg_read reg_write prevRegValue cmd) arrivals 0 []).1.length,
    ?_, ?_, ?_⟩
  · exact (retryLoop_length_bounds cmd.packet_id
      (makeResponseData reg_read reg_write prevRegValue cmd) arrivals
      SEND_RESPONSE_ATTEMPTS 0 rfl (by decide)).1
  · have hb := (retryLoop_length_bounds cmd.packet_id
      (makeResponseData reg_read reg_write prevRegValue cmd) arrivals
      SEND_RESPONSE_ATTEMPTS 0 rfl (by decide)).2
    omega
  · exact retryLoop_sent_replicate cmd.packet_id
      (makeResponseData reg_read reg_write prevRegValue cmd) arrivals
      SEND_RESPONSE_ATTEMPTS 0 rfl

/-- Claim C2: if a ReplyAck whose packet_id equals the current command's
packet_id is available to the 100 ms wait of some attempt `j`, the retry loop
terminates in success (final counter strictly below the attempt limit, no
failure signalled) and no Response frame after the `j+1`-st is sent. -/
theorem c2_early_stop (reg_read : Nat → Nat × Nat)
    (reg_write : Nat → Nat → Nat) (prevRegValue : Nat)
    (pendingAcks : List ackData_t) (cmd : commandData_t)
    (arrivals : Nat → Option ackData_t) (j : Nat) (a : ackData_t)
    (hj : j < SEND_RESPONSE_ATTEMPTS) (ha : arrivals j = some a)
    (hid : a.packet_id = cmd.packet_id) :
    TIMEOUT_RECEIVE_REPLY_ACK_MS = 100 ∧
    (commandsProcessCycle reg_read reg_write prevRegValue pendingAcks cmd
        arrivals).finalAttempt < SEND_RESPONSE_ATTEMPTS ∧
    (commandsProcessCycle reg_read reg_write prevRegValue pendingAcks cmd
        arrivals).handshakeFailSignaled = false ∧
    (commandsProcessCycle reg_read reg_write prevRegValue pendingAcks cmd
        arrivals).responsesSent.length ≤ j + 1 := by
  rw [commandsProcessCycle_finalAttempt, commandsProcessCycle_fail,
    commandsProcessCycle_responses]
  have hs := retryLoop_success cmd.packet_id
    (makeResponseData reg_read reg_write prevRegValue cmd) arrivals
    SEND_RESPONSE_ATTEMPTS 0 rfl j a (Nat.zero_le j) hj ha hid
  refine ⟨rfl, hs.1, ?_, ?_⟩
  · exact beq_eq_false_iff_ne.mpr (Nat.ne_of_lt hs.1)
  · have := hs.2
    omega

/-- Witness for C2: command 42, matching ack available to every attempt; the
loop succeeds after one response. -/
theorem c2_early_stop_witness :
    TIMEOUT_RECEIVE_REPLY_ACK_MS = 100 ∧
    (commandsProcessCycle (fun _ => (RESPONSE_OK, 43981)) (fun _ _ => RESPONSE_OK)
        0 [] { packet_id := 42, command_type := 0, reg_address := 4096, reg_value := 0 }
        (fun _ => some { packet_id := 42 })).finalAttempt < SEND_RESPONSE_ATTEMPTS ∧
    (commandsProcessCycle (fun _ => (RESPONSE_OK, 43981)) (fun _ _ => RESPONSE_OK)
        0 [] { packet_id := 42, command_type := 0, reg_address := 4096, reg_value := 0 }
        (fun _ => some { packet_id := 42 })).handshakeFailSignaled = false ∧
    (commandsProcessCycle (fun _ => (RESPONSE_OK, 43981)) (fun _ _ => RESPONSE_OK)
        0 [] { packet_id := 42, command_type := 0, reg_address := 4096, reg_value := 0 }
        (fun _ => some { packet_id := 42 })).responsesSent.length ≤ 0 + 1 :=
  c2_early_stop (fun _ => (RESPONSE_OK, 43981)) (fun _ _ => RESPONSE_OK) 0 []
    { packet_id := 42, command_type := 0, reg_address := 4096, reg_value := 0 }
    (fun _ => some { packet_id := 42 }) 0 { packet_id := 42 }
    (by decide) rfl rfl

/-- Claim C3: if no ReplyAck with matching packet_id is available to any of
the 3 attempts, exactly 3 Response frames are sent and the handshake failure
is signalled; and the failure is signalled if and only if all attempts go
unmatched. -/
theorem c3_exhaust_iff (reg_read : Nat → Nat × Nat)
    (reg_write : Nat → Nat → Nat) (prevRegValue : Nat)
    (pendingAcks : List ackData_t) (cmd : commandData_t)
    (arrivals : Nat → Option ackData_t) :
    SEND_RESPONSE_ATTEMPTS = 3 ∧
    ((∀ (j : Nat) (a : ackData_t), j < SEND_RESPONSE_ATTEMPTS →
        arrivals j = some a → a.packet_id ≠ cmd.packet_id) →
      (commandsProcessCycle reg_read reg_write prevRegValue pendingAcks cmd
          arrivals).responsesSent.length = SEND_RESPONSE_ATTEMPTS ∧
      (commandsProcessCycle reg_read reg_write prevRegValue pendingAcks cmd
          arrivals).handshakeFailSignaled = true) ∧
    ((commandsProcessCycle reg_read reg_write prevRegValue pendingAcks cmd
        arrivals).handshakeFailSignaled = true ↔
      ∀ (j : Nat) (a : ackData_t), j < SEND_RESPONSE_ATTEMPTS →
        arrivals j = some a → a.packet_id ≠ cmd.packet_id) := by
  rw [commandsProcessCycle_fail, commandsProcessCycle_responses]
  refine ⟨rfl, ?_, ?_, ?_⟩
  · intro hnone
    have he := retryLoop_exhaust cmd.packet_id
      (makeResponseData reg_read reg_write prevRegValue cmd) arrivals
      SEND_RESPONSE_ATTEMPTS 0 rfl (by decide)
      (fun j a _ hjS hja => hnone j a hjS hja)
    exact ⟨he.2, beq_iff_eq.mpr he.1⟩
  · intro hfail j a hjS hja hmatch
    have hs := retryLoop_success cmd.packet_id
      (makeResponseData reg_read reg_write prevRegValue cmd) arrivals
      SEND_RESPONSE_ATTEMPTS 0 rfl j a (Nat.zero_le j) hjS hja hmatch
    have hf := beq_iff_eq.mp hfail
    omega
  · intro hnone
    have he := retryLoop_exhaust cmd.packet_id
      (makeResponseData reg_read reg_write prevRegValue cmd) arrivals
      SEND_RESPONSE_ATTEMPTS 0 rfl (by decide)
      (fun j a _ hjS hja => hnone j a hjS hja)
    exact beq_iff_eq.mpr he.1

/-- Witness for C3: command 42 while only a wrong-id ack (41) ever arrives:
3 responses are sent and failure is signalled. -/
theorem c3_exhaust_iff_witness :
    (commandsProcessCycle (fun _ => (RESPONSE_OK, 43981)) (fun _ _ => RESPONSE_OK)
        0 [] { packet_id := 42, command_type := 0, reg_address := 4096, reg_value := 0 }
        (fun _ => some { packet_id := 41 })).responsesSent.length =
      SEND_RESPONSE_ATTEMPTS ∧
    (commandsProcessCycle (fun _ => (RESPONSE_OK, 43981)) (fun _ _ => RESPONSE_OK)
        0 [] { packet_id := 42, command_type := 0, reg_address := 4096, reg_value := 0 }
        (fun _ => some { packet_id := 41 })).handshakeFailSignaled = true :=
  (c3_exhaust_iff (fun _ => (RESPONSE_OK, 43981)) (fun _ _ => RESPONSE_OK) 0 []
    { packet_id := 42, command_type := 0, reg_address := 4096, reg_value := 0 }
    (fun _ => some { packet_id := 41 })).2.1
    (by
      intro j a _ hja
      have ha : a = { packet_id := 41 } := by
        have := hja.symm
        injection this
      rw [ha]
      decide)

/-- Claim C4: inside the retry loop, a dequeued ack with a different
packet_id is not accepted: the attempt is consumed (its response was sent)
and the loop proceeds to the next attempt; if it was the last attempt the
counter reaches `SEND_RESPONSE_ATTEMPTS` (the Failed state). -/
theorem c4_mismatch_consumes (cmdId : Nat) (resp : responseData_t)
    (arrivals : Nat → Option ackData_t) (j : Nat) (a : ackData_t)
    (hj : j < SEND_RESPONSE_ATTEMPTS) (ha : arrivals j = some a)
    (hid : a.packet_id ≠ cmdId) :
    retryLoop cmdId resp arrivals j [] =
      (resp :: (retryLoop cmdId resp arrivals (j + 1) []).1,
        (retryLoop cmdId resp arrivals (j + 1) []).2) ∧
    (j + 1 = SEND_RESPONSE_ATTEMPTS →
      (retryLoop cmdId resp arrivals j []).2 = SEND_RESPONSE_ATTEMPTS) := by
  constructor
  · exact retryLoop_mismatch hj ha hid
  · intro hlast
    rw [retryLoop_mismatch hj ha hid, retryLoop_stop (by omega)]
    exact hlast

/-- A sample response record used by witness statements. -/
def sampleResp : responseData_t :=
  { packet_id := 42, response_status := 1, reg_address := 4096,
    reg_value := 43981 }

/-- An ack stream that only ever delivers the wrong id 41. -/
def wrongAckArrivals : Nat → Option ackData_t :=
  fun _ => some { packet_id := 41 }

/-- Witness for C4 at the 3rd attempt (`j = 2`) of command 42 with a
wrong-id ack: the attempt is consumed and the counter reaches the Failed
state. -/
theorem c4_mismatch_consumes_witness :
    retryLoop 42 sampleResp wrongAckArrivals 2 [] =
      (sampleResp :: (retryLoop 42 sampleResp wrongAckArrivals 3 []).1,
        (retryLoop 42 sampleResp wrongAckArrivals 3 []).2) ∧
    (2 + 1 = SEND_RESPONSE_ATTEMPTS →
      (retryLoop 42 sampleResp wrongAckArrivals 2 []).2 =
        SEND_RESPONSE_ATTEMPTS) :=
  c4_mismatch_consumes 42 sampleResp wrongAckArrivals 2 { packet_id := 41 }
    (by decide) rfl (by decide)

/-- Claim C5: the ResponseRecord for a command with packet_id S and address A
is computed by dispatch on `command_type`: ReadRegister takes status and
value from the backend read of A; WriteRegister takes status from the
backend write of the command's value to A and echoes that value; any other
`command_type` yields status Fault; in every case the record carries
packet_id S and address A. -/
theorem c5_response_fields (reg_read : Nat → Nat × Nat)
    (reg_write : Nat → Nat → Nat) (prevRegValue : Nat) (cmd : commandData_t) :
    (makeResponseData reg_read reg_write prevRegValue cmd).packet_id =
      cmd.packet_id ∧
    (makeResponseData reg_read reg_write prevRegValue cmd).reg_address =
      cmd.reg_address ∧
    (cmd.command_type = COMMAND_TYPE_READ_REGISTER →
      (makeResponseData reg_read reg_write prevRegValue cmd).response_status =
        (reg_read cmd.reg_address).1 ∧
      (makeResponseData reg_read reg_write prevRegValue cmd).reg_value =
        (reg_read cmd.reg_address).2) ∧
    (cmd.command_type = COMMAND_TYPE_WRITE_REGISTER →
      (makeResponseData reg_read reg_write prevRegValue cmd).response_status =
        reg_write cmd.reg_address cmd.reg_value ∧
      (makeResponseData reg_read reg_write prevRegValue cmd).reg_value =
        cmd.reg_value) ∧
    (cmd.command_type ≠ COMMAND_TYPE_READ_REGISTER →
      cmd.command_type ≠ COMMAND_TYPE_WRITE_REGISTER →
      (makeResponseData reg_read reg_write prevRegValue cmd).response_status =
        RESPONSE_FAULT) := by
  unfold makeResponseData
  split_ifs with h1 h2 <;>
    simp_all [COMMAND_TYPE_READ_REGISTER, COMMAND_TYPE_WRITE_REGISTER]

/-- Witness for C5 on three concrete commands, one per branch: a read of
address 4096, a write of 7 to 4096, and an invalid command_type 9. -/
theorem c5_response_fields_witness :
    ((makeResponseData (fun _ => (1, 43981)) (fun _ _ => 1) 0
        { packet_id := 42, command_type := 0, reg_address := 4096,
          reg_value := 0 }).response_status = 1 ∧
      (makeResponseData (fun _ => (1, 43981)) (fun _ _ => 1) 0
        { packet_id := 42, command_type := 0, reg_address := 4096,
          reg_value := 0 }).reg_value = 43981) ∧
    ((makeResponseData (fun _ => (1, 43981)) (fun _ _ => 1) 0
        { packet_id := 43, command_type := 1, reg_address := 4096,
          reg_value := 7 }).response_status = 1 ∧
      (makeResponseData (fun _ => (1, 43981)) (fun _ _ => 1) 0
        { packet_id := 43, command_type := 1, reg_address := 4096,
          reg_value := 7 }).reg_value = 7) ∧
    (makeResponseData (fun _ => (1, 43981)) (fun _ _ => 1) 0
      { packet_id := 44, command_type := 9, reg_address := 4096,
        reg_value := 7 }).response_status = RESPONSE_FAULT :=
  ⟨(c5_response_fields (fun _ => (1, 43981)) (fun _ _ => 1) 0
      { packet_id := 42, command_type := 0, reg_address := 4096,
        reg_value := 0 }).2.2.1 rfl,
    (c5_response_fields (fun _ => (1, 43981)) (fun _ _ => 1) 0
      { packet_id := 43, command_type := 1, reg_address := 4096,
        reg_value := 7 }).2.2.2.1 rfl,
    (c5_response_fields (fun _ => (1, 43981)) (fun _ _ => 1) 0
      { packet_id := 44, command_type := 9, reg_address := 4096,
        reg_value := 7 }).2.2.2.2 (by decide) (by decide)⟩

/-- Claim C6: line 172 clears the reply-ack queue before the first attempt:
the queue is emptied, the cycle's outcome is independent of whatever was
pending in the queue when the cycle started, and in particular a stale
matching ack left over from a previous cycle cannot be accepted — with no
matching ack among this cycle's arrivals the handshake still fails. -/
theorem c6_reset_clears (reg_read : Nat → Nat × Nat)
    (reg_write : Nat → Nat → Nat) (prevRegValue : Nat)
    (pending₁ pending₂ : List ackData_t) (cmd : commandData_t)
    (arrivals : Nat → Option ackData_t) :
    xQueueReset pending₁ = [] ∧
    commandsProcessCycle reg_read reg_write prevRegValue pending₁ cmd arrivals =
      commandsProcessCycle reg_read reg_write prevRegValue pending₂ cmd
        arrivals ∧
    ((∀ (j : Nat) (a : ackData_t), j < SEND_RESPONSE_ATTEMPTS →
        arrivals j = some a → a.packet_id ≠ cmd.packet_id) →
      (commandsProcessCycle reg_read reg_write prevRegValue
          ({ packet_id := cmd.packet_id } :: pending₁) cmd
          arrivals).handshakeFailSignaled = true) := by
  refine ⟨rfl, rfl, ?_⟩
  intro hnone
  rw [commandsProcessCycle_fail]
  have he := retryLoop_exhaust cmd.packet_id
    (makeResponseData reg_read reg_write prevRegValue cmd) arrivals
    SEND_RESPONSE_ATTEMPTS 0 rfl (by decide)
    (fun j a _ hjS hja => hnone j a hjS hja)
  exact beq_iff_eq.mpr he.1

/-- Witness for C6: command 42 with a stale matching ack 42 pending from
before the cycle and only wrong-id arrivals during it — the stale ack is
discarded and the handshake fails. -/
theorem c6_reset_clears_witness :
    xQueueReset [({ packet_id := 42 } : ackData_t)] = [] ∧
    (commandsProcessCycle (fun _ => (RESPONSE_OK, 43981)) (fun _ _ => RESPONSE_OK)
        0 [{ packet_id := 42 }]
        { packet_id := 42, command_type := 0, reg_address := 4096, reg_value := 0 }
        wrongAckArrivals).handshakeFailSignaled = true :=
  ⟨(c6_reset_clears (fun _ => (RESPONSE_OK, 43981)) (fun _ _ => RESPONSE_OK) 0
      [{ packet_id := 42 }] []
      { packet_id := 42, command_type := 0, reg_address := 4096, reg_value := 0 }
      wrongAckArrivals).1,
    (c6_reset_clears (fun _ => (RESPONSE_OK, 43981)) (fun _ _ => RESPONSE_OK) 0
      [] []
      { packet_id := 42, command_type := 0, reg_address := 4096, reg_value := 0 }
      wrongAckArrivals).2.2
      (by
        intro j a _ hja
        have ha : a = { packet_id := 41 } := by
          have hs := hja.symm
          injection hs
        rw [ha]
        decide)⟩

/-! Packet codec. The four frame kinds of the wire format (packet table,
`src/task2.c` lines 1-41). -/

/-- A tagged frame, one constructor per `packet_type` value. -/
inductive frame_t where
  | command (packet_id : Nat) (command_type : Nat) (reg_address : Nat)
      (reg_value : Nat)
  | response (packet_id : Nat) (response_status : Nat) (reg_address : Nat)
      (reg_value : Nat)
  | reqAck (packet_id : Nat)
  | replyAck (packet_id : Nat)
deriving DecidableEq, Repr

/-- The `packet_type` byte of a frame (byte 0 of the wire format). -/
def packetType : frame_t → Nat
  | .command _ _ _ _ => PACKET_TYPE_COMMAND
  | .response _ _ _ _ => PACKET_TYPE_RESPONSE
  | .reqAck _ => PACKET_TYPE_REQ_ACK
  | .replyAck _ => PACKET_TYPE_REPLY_ACK

/-- The four bytes of a `uint32_t` field, least significant byte first (the
source leaves byte order unspecified; the choice does not affect lengths). -/
def u32Bytes (x : Nat) : List Nat :=
  [x % 256, x / 256 % 256, x / 65536 % 256, x / 16777216 % 256]

/-- Modelled from the spec: `makePacket` is called at line 204 of
`src/task2.c` but its body is not in the source. Per the packet-structure
table (lines 1-41): byte 0 packet_type; bytes 1-4 packet_id; for Command and
Response only, byte 5 command_type/response_status, bytes 6-9 reg_address,
bytes 10-13 reg_value; REQ_ACK and REPLY_ACK frames end after byte 4. -/
def makePacket : frame_t → List Nat
  | .command pid ct addr v =>
      PACKET_TYPE_COMMAND :: u32Bytes pid ++ ct % 256 :: u32Bytes addr ++
        u32Bytes v
  | .response pid st addr v =>
      PACKET_TYPE_RESPONSE :: u32Bytes pid ++ st % 256 :: u32Bytes addr ++
        u32Bytes v
  | .reqAck pid => PACKET_TYPE_REQ_ACK :: u32Bytes pid
  | .replyAck pid => PACKET_TYPE_REPLY_ACK :: u32Bytes pid

/-- Claim C9: encoding produces exactly 14 bytes for Command and Response
frames and exactly 5 bytes for REQ_ACK and REPLY_ACK frames; the encoded
length depends only on the frame kind and never exceeds `PACKET_MAX_SIZE`. -/
theorem c9_encode_lengths (f g : frame_t) :
    ((packetType f = PACKET_TYPE_COMMAND ∨
      packetType f = PACKET_TYPE_RESPONSE) → (makePacket f).length = 14) ∧
    ((packetType f = PACKET_TYPE_REQ_ACK ∨
      packetType f = PACKET_TYPE_REPLY_ACK) → (makePacket f).length = 5) ∧
    (packetType f = packetType g →
      (makePacket f).length = (makePacket g).length) ∧
    (makePacket f).length ≤ PACKET_MAX_SIZE := by
  cases f <;> cases g <;>
    simp [makePacket, packetType, u32Bytes, PACKET_TYPE_COMMAND,
      PACKET_TYPE_RESPONSE, PACKET_TYPE_REQ_ACK, PACKET_TYPE_REPLY_ACK,
      PACKET_MAX_SIZE]

/-- Witness for C9: a concrete Response frame encodes to 14 bytes and a
concrete REPLY_ACK frame to 5. -/
theorem c9_encode_lengths_witness :
    (makePacket (frame_t.response 42 1 4096 43981)).length = 14 ∧
    (makePacket (frame_t.replyAck 42)).length = 5 :=
  ⟨(c9_encode_lengths (frame_t.response 42 1 4096 43981)
      (frame_t.replyAck 42)).1 (Or.inr rfl),
    (c9_encode_lengths (frame_t.replyAck 42)
      (frame_t.response 42 1 4096 43981)).2.1 (Or.inr rfl)⟩

/-! Ingress router (`updInputDataParseTask`, lines 94-130). -/

/-- Capacity of `commandDataQueue` (`xQueueCreate(10, ...)`, line 100). -/
def commandQueueCapacity : Nat := 10

/-- Capacity of `replyAckQueue` (`xQueueCreate(1, ...)`, line 101). -/
def replyAckQueueCapacity : Nat := 1

/-- Modelled from the spec: `packetToCommandData` (called at line 111) has no
body in the source; it decodes the wire fields of a Command packet per the
packet table — packet_id from bytes 1-4, command_type from byte 5,
reg_address from bytes 6-9, reg_value from bytes 10-13. -/
def u32At (pkt : List Nat) (i : Nat) : Nat :=
  pkt.getD i 0 + 256 * pkt.getD (i + 1) 0 + 65536 * pkt.getD (i + 2) 0 +
    16777216 * pkt.getD (i + 3) 0

def packetToCommandData (pkt : List Nat) : commandData_t :=
  { packet_id := u32At pkt 1
    command_type := pkt.getD 5 0
    reg_address := u32At pkt 6
    reg_value := u32At pkt 10 }

/-- Modelled from the spec: `packetToReplyAck` (called at line 120) has no
body in the source; it decodes the packet_id of a REPLY_ACK packet from
bytes 1-4. -/
def packetToReplyAck (pkt : List Nat) : ackData_t :=
  { packet_id := u32At pkt 1 }

/-- `xQueueSend` with a bounded timeout, observed at the instant the verdict
is reached: it succeeds (appending the record in FIFO order) exactly when
the queue is below capacity; a queue still full past the timeout yields
failure and the record is not stored. -/
def xQueueSendTimed {α : Type} (q : List α) (cap : Nat) (x : α) :
    Option (List α) :=
  if q.length < cap then some (q ++ [x]) else none

/-- The two channel states owned by the router. -/
structure routerQueues_t where
  commandDataQueue : List commandData_t
  replyAckQueue : List ackData_t
deriving DecidableEq, Repr

/-- Observable outcome of routing one valid inbound packet. -/
inductive routerOutcome_t where
  | enqueuedCommand
  | enqueuedReplyAck
  | droppedFull
  | discarded
deriving DecidableEq, Repr

/-- Only a drop on a full channel raises the failure signal ("Make some
signal for fail to adding message to queue", lines 114 and 123); discarding
a frame of another kind is silent. -/
def signalsFailure : routerOutcome_t → Bool
  | .droppedFull => true
  | _ => false

/-- One iteration of `updInputDataParseTask`'s loop body (lines 103-129) for
a valid received packet `pkt` (byte list, byte 0 the packet_type): a Command
packet's record goes to `commandDataQueue`, a REPLY_ACK packet's record to
`replyAckQueue`, each with the bounded-timeout send; on a full channel the
record is dropped, the failure is signalled and the task continues; any
other packet_type falls through both branches with no action. -/
def updInputDataParseStep (qs : routerQueues_t) (pkt : List Nat) :
    routerQueues_t × routerOutcome_t :=
  if pkt.getD 0 0 = PACKET_TYPE_COMMAND then
    match xQueueSendTimed qs.commandDataQueue commandQueueCapacity
        (packetToCommandData pkt) with
    | some q => ({ qs with commandDataQueue := q }, .enqueuedCommand)
    | none => (qs, .droppedFull)
  else if pkt.getD 0 0 = PACKET_TYPE_REPLY_ACK then
    match xQueueSendTimed qs.replyAckQueue replyAckQueueCapacity
        (packetToReplyAck pkt) with
    | some q => ({ qs with replyAckQueue := q }, .enqueuedReplyAck)
    | none => (qs, .droppedFull)
  else
    (qs, .discarded)

/-- Claim C7: a valid inbound datagram with packet_type Command is enqueued
(as its decoded record) on the command channel of capacity 10, one with
packet_type REPLY_ACK on the reply-ack channel of capacity 1, each under the
1000 ms bounded send; if the channel is still full past the timeout the
record is dropped, the failure is signalled and the router moves on; any
other packet_type is discarded silently. -/
theorem c7_router_step (qs : routerQueues_t) (pkt : List Nat) :
    commandQueueCapacity = 10 ∧
    replyAckQueueCapacity = 1 ∧
    TIMEOUT_SEND_COMMAND_MS = 1000 ∧
    TIMEOUT_SEND_REPLY_ACK_MS = 1000 ∧
    (pkt.getD 0 0 = PACKET_TYPE_COMMAND →
      (qs.commandDataQueue.length < commandQueueCapacity →
        updInputDataParseStep qs pkt =
          ({ qs with commandDataQueue :=
              qs.commandDataQueue ++ [packetToCommandData pkt] },
            routerOutcome_t.enqueuedCommand)) ∧
      (¬ qs.commandDataQueue.length < commandQueueCapacity →
        updInputDataParseStep qs pkt = (qs, routerOutcome_t.droppedFull) ∧
        signalsFailure (updInputDataParseStep qs pkt).2 = true)) ∧
    (pkt.getD 0 0 = PACKET_TYPE_REPLY_ACK →
      (qs.replyAckQueue.length < replyAckQueueCapacity →
        updInputDataParseStep qs pkt =
          ({ qs with replyAckQueue :=
              qs.replyAckQueue ++ [packetToReplyAck pkt] },
            routerOutcome_t.enqueuedReplyAck)) ∧
      (¬ qs.replyAckQueue.length < replyAckQueueCapacity →
        updInputDataParseStep qs pkt = (qs, routerOutcome_t.droppedFull) ∧
        signalsFailure (updInputDataParseStep qs pkt).2 = true)) ∧
    (pkt.getD 0 0 ≠ PACKET_TYPE_COMMAND →
      pkt.getD 0 0 ≠ PACKET_TYPE_REPLY_ACK →
      updInputDataParseStep qs pkt = (qs, routerOutcome_t.discarded) ∧
      signalsFailure (updInputDataParseStep qs pkt).2 = false) := by
  refine ⟨rfl, rfl, rfl, rfl, ?_, ?_, ?_⟩
  · intro h1
    constructor
    · intro hroom
      unfold updInputDataParseStep xQueueSendTimed
      rw [if_pos h1, if_pos hroom]
    · intro hfull
      have hstep : updInputDataParseStep qs pkt =
          (qs, routerOutcome_t.droppedFull) := by
        unfold updInputDataParseStep xQueueSendTimed
        rw [if_pos h1, if_neg hfull]
      exact ⟨hstep, by rw [hstep]; rfl⟩
  · intro h4
    have hne1 : ¬ pkt.getD 0 0 = PACKET_TYPE_COMMAND := by
      rw [h4]
      decide
    constructor
    · intro hroom
      unfold updInputDataParseStep xQueueSendTimed
      rw [if_neg hne1, if_pos h4, if_pos hroom]
    · intro hfull
      have hstep : updInputDataParseStep qs pkt =
          (qs, routerOutcome_t.droppedFull) := by
        unfold updInputDataParseStep xQueueSendTimed
        rw [if_neg hne1, if_pos h4, if_neg hfull]
      exact ⟨hstep, by rw [hstep]; rfl⟩
  · intro hne1 hne4
    have hstep : updInputDataParseStep qs pkt =
        (qs, routerOutcome_t.discarded) := by
      unfold updInputDataParseStep
      rw [if_neg hne1, if_neg hne4]
    exact ⟨hstep, by rw [hstep]; rfl⟩

/-- Witness for C7 on concrete packets: a Command packet enqueued on empty
queues, a REPLY_ACK packet dropped with failure on a full reply-ack channel,
and a Response packet (type 2) silently discarded. -/
theorem c7_router_step_witness :
    updInputDataParseStep { commandDataQueue := [], replyAckQueue := [] }
        [1, 42, 0, 0, 0, 0, 0, 16, 0, 0, 7, 0, 0, 0] =
      ({ commandDataQueue :=
           [packetToCommandData [1, 42, 0, 0, 0, 0, 0, 16, 0, 0, 7, 0, 0, 0]]
         replyAckQueue := [] }, routerOutcome_t.enqueuedCommand) ∧
    updInputDataParseStep
        { commandDataQueue := [], replyAckQueue := [{ packet_id := 41 }] }
        [4, 42, 0, 0, 0] =
      ({ commandDataQueue := [], replyAckQueue := [{ packet_id := 41 }] },
        routerOutcome_t.droppedFull) ∧
    updInputDataParseStep { commandDataQueue := [], replyAckQueue := [] }
        [2, 42, 0, 0, 0] =
      ({ commandDataQueue := [], replyAckQueue := [] },
        routerOutcome_t.discarded) :=
  ⟨(c7_router_step { commandDataQueue := [], replyAckQueue := [] }
      [1, 42, 0, 0, 0, 0, 0, 16, 0, 0, 7, 0, 0, 0]).2.2.2.2.1 rfl |>.1
      (by decide),
    ((c7_router_step
        { commandDataQueue := [], replyAckQueue := [{ packet_id := 41 }] }
        [4, 42, 0, 0, 0]).2.2.2.2.2.1 rfl |>.2 (by decide)).1,
    ((c7_router_step { commandDataQueue := [], replyAckQueue := [] }
        [2, 42, 0, 0, 0]).2.2.2.2.2.2 (by decide) (by decide)).1⟩

/-! Transmit gate (`udpSendBlocked`, lines 199-209). -/

/-- Caller-observable effect of one `udpSendBlocked` call: the bytes handed
to `FreeRTOS_sendto`, whether the mutex was held around the write and
released afterwards, and the error information returned to the caller. -/
structure udpSendResult_t where
  wireBytes : List Nat
  mutexHeldDuringSend : Bool
  mutexReleasedAfter : Bool
  callerError : Option Unit
deriving DecidableEq

/-- Embedding of `udpSendBlocked` (lines 199-209): `makePacket`, then
`FreeRTOS_sendto` bracketed by `xMutexAcquire`/`xMutexRelease` on
`udpSendMutex`. The C function's return type is `void` and the result of
`FreeRTOS_sendto` (line 207) is never inspected, so whatever the transport
write outcome `transportWriteOk`, no error reaches the caller
(`callerError := none`). -/
def udpSendBlocked (f : frame_t) (transportWriteOk : Bool) : udpSendResult_t :=
  let _ := transportWriteOk
  { wireBytes := makePacket f
    mutexHeldDuringSend := true
    mutexReleasedAfter := true
    callerError := none }

/-- Counterexample to claim C8 at a concrete input: when the transport write
of a Response frame fails (`transportWriteOk = false`), `udpSendBlocked`
reports nothing to its caller — no TransmitError is produced and the call is
indistinguishable from a successful one. -/
theorem c8_transmit_counterexample :
    (udpSendBlocked (frame_t.response 42 1 4096 43981) false).callerError =
      none ∧
    udpSendBlocked (frame_t.response 42 1 4096 43981) false =
      udpSendBlocked (frame_t.response 42 1 4096 43981) true :=
  ⟨rfl, rfl⟩

/-- Amended C8: `udpSendBlocked` returns no status at all — a transport
write failure is not reported to the caller, the result is independent of
the write outcome; the frame bytes are still produced and the mutex is
released on every path. -/
theorem c8_transmit_no_error_report (f : frame_t) (transportWriteOk : Bool) :
    (udpSendBlocked f transportWriteOk).callerError = none ∧
    udpSendBlocked f transportWriteOk = udpSendBlocked f (!transportWriteOk) ∧
    (udpSendBlocked f transportWriteOk).wireBytes = makePacket f ∧
    (udpSendBlocked f transportWriteOk).mutexReleasedAfter = true :=
  ⟨rfl, rfl, rfl, rfl⟩

end Task2
